import Mathlib

/-!
# Verification of the GitHubSentinel report-generation core (`src/llm.py`)

Shallow embedding of the `LLM` class of `src/llm.py`: prompt composition
(`_build_system_content`), the retry loop of `generate_report`, constructor-time
configuration checks (`__init__`), and the Ollama adapter
(`_generate_report_ollama`).

Python strings are modelled as `List Char` (`PyStr`); `None` becomes `Option`.
Exceptions are modelled with `Except`.  Network traffic is an oracle parameter:
each attempt index is mapped to the backend outcome for that attempt, which is
exactly the information a sequential retry loop can observe.
-/

namespace GitHubSentinel

/-- Python strings, modelled as character lists so that prefix/suffix and
concatenation facts are directly available. -/
abbrev PyStr := List Char

/-- Whitespace recognised by Python's `str.strip()`: the full Unicode
whitespace set of CPython (`Py_UNICODE_ISSPACE`), i.e. U+0009..U+000D,
U+001C..U+0020, U+0085 (NEL), U+00A0 (NBSP), U+1680, U+2000..U+200A,
U+2028, U+2029, U+202F, U+205F and U+3000. -/
def pyIsSpace (c : Char) : Bool :=
  (9 ≤ c.toNat && c.toNat ≤ 13) || (28 ≤ c.toNat && c.toNat ≤ 32) ||
  c.toNat == 133 || c.toNat == 160 || c.toNat == 0x1680 ||
  (0x2000 ≤ c.toNat && c.toNat ≤ 0x200A) || c.toNat == 0x2028 || c.toNat == 0x2029 ||
  c.toNat == 0x202F || c.toNat == 0x205F || c.toNat == 0x3000

/-- Python `str.strip()`: drop leading and trailing whitespace. -/
def pyStrip (s : PyStr) : PyStr :=
  ((s.dropWhile pyIsSpace).reverse.dropWhile pyIsSpace).reverse

/-- Python `str.lower()` (ASCII case folding, as used for model-type strings). -/
def pyLower (s : PyStr) : PyStr :=
  s.map Char.toLower

/-- `DEFAULT_SYSTEM_ROLE_BASE` from `src/llm.py`. -/
def DEFAULT_SYSTEM_ROLE_BASE : String :=
  "你是一名专业的技术报告撰写助手。请严格遵守以下规则：\n- 仅根据用户提供的原始内容进行归纳与分类，不要编造或添加未出现的信息。\n- 输出必须为合法 Markdown，使用中文撰写。\n- 若无法从内容中明确分类，可将条目归入「其他」并简要说明。\n- 保持结构清晰、条目不重复。"

/-- Message roles: the engine only ever emits `system` and `user` messages. -/
inductive Role : Type
  | system
  | user
deriving DecidableEq, Repr

/-- One chat message, a (role, content) pair. -/
structure Message : Type where
  role : Role
  content : PyStr
deriving DecidableEq, Repr

/-- The separator `\n\n---\n\n` used between the base block and the task prompt
in `LLM._build_system_content`. -/
def sep : PyStr := "\n\n---\n\n".data

/-- `LLM._build_system_content(self, task_prompt)` from `src/llm.py`:
`if not (task_prompt or "").strip(): return self._system_role_base` and
otherwise the f-string `base + "\n\n---\n\n" + task_prompt.strip()`.
`base` stands for the resolved `self._system_role_base`; a `None` task prompt
is `Option.none`. -/
def build_system_content (base : PyStr) (task_prompt : Option PyStr) : PyStr :=
  if pyStrip (task_prompt.getD []) = [] then base
  else base ++ sep ++ pyStrip (task_prompt.getD [])

/-- Resolution of `self._system_role_base` in `LLM.__init__`:
`(base or "").strip() or DEFAULT_SYSTEM_ROLE_BASE`. -/
def resolveSystemRoleBase (override : Option PyStr) : PyStr :=
  if pyStrip (override.getD []) = [] then DEFAULT_SYSTEM_ROLE_BASE.data
  else pyStrip (override.getD [])

/-- The message list built at the top of `LLM.generate_report`:
one system message with the composed content, then one user message with
`user_content or ""`. -/
def buildMessages (base : PyStr) (system_prompt user_content : Option PyStr) :
    List Message :=
  [⟨Role.system, build_system_content base system_prompt⟩,
   ⟨Role.user, user_content.getD []⟩]

theorem pyStrip_eq_nil_of_all_space (s : PyStr) (h : ∀ c ∈ s, pyIsSpace c) :
    pyStrip s = [] := by
  unfold pyStrip
  have h1 : s.dropWhile pyIsSpace = [] := List.dropWhile_eq_nil_iff.mpr h
  simp [h1]

/-- C3: for every task prompt that is empty, null (`Option.none`), or made only
of whitespace characters, `_build_system_content` returns exactly the configured
base persona block, with nothing appended. -/
theorem compose_whitespace_returns_base (base : PyStr) (tp : Option PyStr)
    (h : ∀ c ∈ tp.getD [], pyIsSpace c) :
    build_system_content base tp = base := by
  unfold build_system_content
  rw [if_pos (pyStrip_eq_nil_of_all_space _ h)]

/-- C3 witness: concrete evaluation on the whitespace prompt `" \t\n"`. -/
theorem compose_whitespace_returns_base_witness :
    build_system_content "BASE".data (some " \t\n".data) = "BASE".data :=
  compose_whitespace_returns_base "BASE".data (some " \t\n".data) (by decide)

/-- C4: for every task prompt that is non-empty after trimming, the composed
output is exactly `base ++ sep ++ trimmed prompt`; hence the base block is a
strict (proper) prefix and the trimmed prompt a strict (proper) suffix of the
output. -/
theorem compose_nonempty_shape (base : PyStr) (tp : Option PyStr)
    (h : pyStrip (tp.getD []) ≠ []) :
    build_system_content base tp = base ++ sep ++ pyStrip (tp.getD []) ∧
    (∃ t, t ≠ [] ∧ build_system_content base tp = base ++ t) ∧
    (∃ p, p ≠ [] ∧ build_system_content base tp = p ++ pyStrip (tp.getD [])) := by
  have e : build_system_content base tp = base ++ sep ++ pyStrip (tp.getD []) := by
    unfold build_system_content
    rw [if_neg h]
  refine ⟨e, ⟨sep ++ pyStrip (tp.getD []), ?_, by rw [e, List.append_assoc]⟩,
    ⟨base ++ sep, ?_, by rw [e]⟩⟩
  · simp [sep, List.append_eq_nil]
  · simp [sep, List.append_eq_nil]

/-- C4 witness: concrete evaluation on the prompt `"  task  "`. -/
theorem compose_nonempty_shape_witness :
    build_system_content "BASE".data (some "  task  ".data) =
      "BASE".data ++ sep ++ "task".data ∧
    (∃ t, t ≠ [] ∧ build_system_content "BASE".data (some "  task  ".data) = "BASE".data ++ t) ∧
    (∃ p, p ≠ [] ∧ build_system_content "BASE".data (some "  task  ".data) =
      p ++ pyStrip ((some "  task  ".data).getD [])) := by
  have h := compose_nonempty_shape "BASE".data (some "  task  ".data) (by decide)
  have e : pyStrip ((some "  task  ".data).getD []) = "task".data := by decide
  exact ⟨by rw [h.1, e], h.2.1, h.2.2⟩

/-- Observable trace of one `generate_report` call: its outcome, the list of
message sequences dispatched to the backend (one entry per attempt, so the
attempt count is `dispatched.length`), and the backoff sleep durations in call
order.  A sleep of `1.0 * (attempt + 1)` seconds is recorded as the natural
number `attempt + 1` (the float value is exact for these integers). -/
structure Trace (E : Type) : Type where
  result : Except E PyStr
  dispatched : List (List Message)
  sleeps : List Nat
deriving Repr

/-- The `for attempt in range(self._max_retries + 1)` loop of
`LLM.generate_report`, written structurally on the number of attempts still
allowed after the current one (`remaining = max_retries - attempt`, so the
Python guard `attempt < self._max_retries` is exactly `remaining > 0`).
`backend` is the oracle giving each attempt's outcome for the dispatched
messages; on failure with attempts remaining the loop sleeps `attempt + 1`
time units and retries, and after the last failure the last error is raised. -/
def attemptLoop {E : Type} (backend : Nat → List Message → Except E PyStr)
    (msgs : List Message) : Nat → Nat → Trace E
  | 0, attempt =>
    match backend attempt msgs with
    | .ok a => ⟨.ok a, [msgs], []⟩
    | .error e => ⟨.error e, [msgs], []⟩
  | n + 1, attempt =>
    match backend attempt msgs with
    | .ok a => ⟨.ok a, [msgs], []⟩
    | .error _ =>
      let t := attemptLoop backend msgs n (attempt + 1)
      ⟨t.result, msgs :: t.dispatched, (attempt + 1) :: t.sleeps⟩

/-- `LLM.generate_report(self, system_prompt, user_content)` from `src/llm.py`:
build the two-message sequence, then run the bounded retry loop starting at
attempt index 0 with `max_retries` extra attempts allowed.  The exhaustion
outcome (`raise last_error`, the spec's `GenerationExhaustedError`) is the
`Except.error` carrying the last attempt's error. -/
def generate_report {E : Type} (base : PyStr) (maxRetries : Nat)
    (backend : Nat → List Message → Except E PyStr)
    (system_prompt user_content : Option PyStr) : Trace E :=
  attemptLoop backend (buildMessages base system_prompt user_content) maxRetries 0

theorem attemptLoop_all_fail {E : Type} (backend : Nat → List Message → Except E PyStr)
    (err : Nat → E) (hfail : ∀ i m, backend i m = .error (err i)) (msgs : List Message) :
    ∀ n attempt, attemptLoop backend msgs n attempt =
      ⟨.error (err (attempt + n)), List.replicate (n + 1) msgs,
        List.range' (attempt + 1) n⟩ := by
  intro n
  induction n with
  | zero =>
    intro attempt
    simp [attemptLoop, hfail attempt msgs, List.replicate]
  | succ n ih =>
    intro attempt
    have harith : attempt + 1 + n = attempt + (n + 1) := by omega
    simp [attemptLoop, hfail attempt msgs, ih (attempt + 1), List.replicate, harith,
      List.range'_succ]

theorem attemptLoop_fail_then_ok {E : Type} (backend : Nat → List Message → Except E PyStr)
    (err : Nat → E) (v : PyStr) (msgs : List Message) :
    ∀ j n attempt, j ≤ n →
      (∀ i m, attempt ≤ i → i < attempt + j → backend i m = .error (err i)) →
      (∀ m, backend (attempt + j) m = .ok v) →
      attemptLoop backend msgs n attempt =
        ⟨.ok v, List.replicate (j + 1) msgs, List.range' (attempt + 1) j⟩ := by
  intro j
  induction j with
  | zero =>
    intro n attempt _ _ hok
    have h0 : backend attempt msgs = .ok v := by simpa using hok msgs
    cases n with
    | zero => simp [attemptLoop, h0, List.replicate]
    | succ n => simp [attemptLoop, h0, List.replicate]
  | succ j ih =>
    intro n attempt hj hfail hok
    cases n with
    | zero => omega
    | succ n =>
      have hcur : backend attempt msgs = .error (err attempt) :=
        hfail attempt msgs (le_refl attempt) (by omega)
      have hfail' : ∀ i m, attempt + 1 ≤ i → i < attempt + 1 + j →
          backend i m = .error (err i) := by
        intro i m h1 h2
        exact hfail i m (by omega) (by omega)
      have hok' : ∀ m, backend (attempt + 1 + j) m = .ok v := by
        intro m
        have harith : attempt + 1 + j = attempt + (j + 1) := by omega
        rw [harith]
        exact hok m
      simp [attemptLoop, hcur, ih n (attempt + 1) (by omega) hfail' hok',
        List.replicate, List.range'_succ]

/-- C1: if the backend adapter fails on every attempt, `generate_report`
exhausts exactly `max_retries + 1` attempts and raises the last error (the
exhaustion outcome), and the backoff sleeps are exactly
`[1, 2, ..., max_retries]`: `max_retries` of them, strictly increasing, the
`k`-th sleeping `1.0 * k` time units. -/
theorem generate_always_fails_exhausts {E : Type} (base : PyStr) (maxRetries : Nat)
    (backend : Nat → List Message → Except E PyStr) (err : Nat → E)
    (system_prompt user_content : Option PyStr)
    (hfail : ∀ i m, backend i m = .error (err i)) :
    (generate_report base maxRetries backend system_prompt user_content).result =
      .error (err maxRetries) ∧
    (generate_report base maxRetries backend system_prompt user_content).dispatched.length =
      maxRetries + 1 ∧
    (generate_report base maxRetries backend system_prompt user_content).sleeps =
      List.range' 1 maxRetries ∧
    (generate_report base maxRetries backend system_prompt user_content).sleeps.length =
      maxRetries ∧
    List.Pairwise (· < ·)
      (generate_report base maxRetries backend system_prompt user_content).sleeps := by
  have h := attemptLoop_all_fail backend err hfail
    (buildMessages base system_prompt user_content) maxRetries 0
  unfold generate_report
  rw [h]
  refine ⟨by simp, by simp, by simp, by simp, ?_⟩
  simpa using List.pairwise_lt_range' 1 maxRetries

/-- C1 witness: a backend failing every attempt with `max_retries = 2`:
three attempts, error of attempt index 2 raised, sleeps `[1, 2]`. -/
theorem generate_always_fails_exhausts_witness :
    (generate_report [] 2 (fun i _ => (Except.error i : Except Nat PyStr)) none none).result =
      .error 2 ∧
    (generate_report [] 2 (fun i _ => (Except.error i : Except Nat PyStr)) none none).dispatched.length = 3 ∧
    (generate_report [] 2 (fun i _ => (Except.error i : Except Nat PyStr)) none none).sleeps =
      List.range' 1 2 ∧
    (generate_report [] 2 (fun i _ => (Except.error i : Except Nat PyStr)) none none).sleeps.length = 2 ∧
    List.Pairwise (· < ·)
      (generate_report [] 2 (fun i _ => (Except.error i : Except Nat PyStr)) none none).sleeps :=
  generate_always_fails_exhausts [] 2 (fun i _ => Except.error i) (fun i => i) none none
    (fun _ _ => rfl)

/-- C2: if the backend fails the first `k` attempts (`k < max_retries`) and
succeeds on attempt `k + 1` (index `k`), `generate_report` returns that success
value immediately: exactly `k + 1` attempts are made, i.e. `k` retries, with
`k` backoff sleeps. -/
theorem generate_fail_then_ok {E : Type} (base : PyStr) (maxRetries k : Nat)
    (backend : Nat → List Message → Except E PyStr) (err : Nat → E) (v : PyStr)
    (system_prompt user_content : Option PyStr)
    (hk : k < maxRetries)
    (hfail : ∀ i m, i < k → backend i m = .error (err i))
    (hok : ∀ m, backend k m = .ok v) :
    (generate_report base maxRetries backend system_prompt user_content).result = .ok v ∧
    (generate_report base maxRetries backend system_prompt user_content).dispatched.length =
      k + 1 ∧
    (generate_report base maxRetries backend system_prompt user_content).sleeps.length = k := by
  have hfail0 : ∀ i m, 0 ≤ i → i < 0 + k → backend i m = .error (err i) := by
    intro i m _ hik
    exact hfail i m (by omega)
  have hok0 : ∀ m, backend (0 + k) m = .ok v := by
    intro m
    simpa using hok m
  have h := attemptLoop_fail_then_ok backend err v
    (buildMessages base system_prompt user_content) k maxRetries 0 (by omega) hfail0 hok0
  unfold generate_report
  rw [h]
  simp

/-- C2 witness: `max_retries = 2`, backend failing attempt 0 and succeeding on
attempt index 1 (`k = 1`): success returned after 2 attempts, 1 retry. -/
theorem generate_fail_then_ok_witness :
    (generate_report [] 2
      (fun i _ => if i = 0 then (Except.error 0 : Except Nat PyStr) else .ok "ok".data)
      none none).result = .ok "ok".data ∧
    (generate_report [] 2
      (fun i _ => if i = 0 then (Except.error 0 : Except Nat PyStr) else .ok "ok".data)
      none none).dispatched.length = 2 ∧
    (generate_report [] 2
      (fun i _ => if i = 0 then (Except.error 0 : Except Nat PyStr) else .ok "ok".data)
      none none).sleeps.length = 1 :=
  generate_fail_then_ok [] 2 1
    (fun i _ => if i = 0 then (Except.error 0 : Except Nat PyStr) else .ok "ok".data)
    (fun _ => 0) "ok".data none none (by omega)
    (fun i m hi => by
      cases i with
      | zero => rfl
      | succ j => omega)
    (fun m => rfl)

theorem attemptLoop_dispatched_const {E : Type}
    (backend : Nat → List Message → Except E PyStr) (msgs : List Message) :
    ∀ n attempt, ∀ m ∈ (attemptLoop backend msgs n attempt).dispatched, m = msgs := by
  intro n
  induction n with
  | zero =>
    intro attempt m hm
    cases h : backend attempt msgs with
    | ok a => simp [attemptLoop, h] at hm; exact hm
    | error e => simp [attemptLoop, h] at hm; exact hm
  | succ n ih =>
    intro attempt m hm
    cases h : backend attempt msgs with
    | ok a => simp [attemptLoop, h] at hm; exact hm
    | error e =>
      simp [attemptLoop, h] at hm
      rcases hm with hm | hm
      · exact hm
      · exact ih (attempt + 1) m hm

/-- C5: every message sequence dispatched to the backend by `generate_report`
is exactly two messages: the system message carrying
`_build_system_content(system_prompt)` followed by the user message carrying
`user_content` (empty string when null); no other messages are ever sent. -/
theorem generate_dispatches_two_messages {E : Type} (base : PyStr) (maxRetries : Nat)
    (backend : Nat → List Message → Except E PyStr)
    (system_prompt user_content : Option PyStr) (m : List Message)
    (hm : m ∈ (generate_report base maxRetries backend system_prompt user_content).dispatched) :
    m = [⟨Role.system, build_system_content base system_prompt⟩,
         ⟨Role.user, user_content.getD []⟩] ∧
    m.length = 2 := by
  have h := attemptLoop_dispatched_const backend
    (buildMessages base system_prompt user_content) maxRetries 0 m hm
  rw [h]
  exact ⟨rfl, rfl⟩

/-- C5 witness: concrete dispatch with an immediately succeeding backend. -/
theorem generate_dispatches_two_messages_witness :
    ([⟨Role.system, build_system_content [] none⟩, ⟨Role.user, []⟩] : List Message) =
      [⟨Role.system, build_system_content [] none⟩, ⟨Role.user, (none : Option PyStr).getD []⟩] ∧
    ([⟨Role.system, build_system_content [] none⟩, ⟨Role.user, []⟩] : List Message).length = 2 :=
  generate_dispatches_two_messages [] 0 (fun _ _ => (Except.ok [] : Except Nat PyStr))
    none none _ (by decide)

/-- JSON values, for the Ollama request payload and response body.  Numbers are
rationals (`4000`, the temperature); objects are key/value association lists
with the keys unique, as in a Python dict. -/
inductive Json : Type
  | null
  | bool (b : Bool)
  | num (q : ℚ)
  | str (s : PyStr)
  | arr (xs : List Json)
  | obj (fields : List (PyStr × Json))

/-- Python truthiness (`if message_content:`) on JSON values: `None`, `False`,
`0`, `""`, `[]` and `{}` are falsy, everything else truthy. -/
def pyTruthy : Json → Bool
  | .null => false
  | .bool b => b
  | .num q => if q = 0 then false else true
  | .str [] => false
  | .str (_ :: _) => true
  | .arr [] => false
  | .arr (_ :: _) => true
  | .obj [] => false
  | .obj (_ :: _) => true

/-- Failure modes of one Ollama attempt, kept distinct exactly as the distinct
Python exceptions are: `transport` for `requests` network errors (timeout,
connection), `httpStatus` for `raise_for_status` on a non-2xx reply,
`invalidShape` for the dedicated
`ValueError("Ollama API 返回的响应结构无效")`, and `attrError` for the
`AttributeError` raised when `.get` is called on a non-dict value. -/
inductive OllamaError : Type
  | transport
  | httpStatus (code : Nat)
  | invalidShape
  | attrError
deriving DecidableEq, Repr

/-- Python `value.get(key, default)`: defined on dicts (returning the stored
value, or `default` when the key is absent) and an `AttributeError` on any
non-dict value. -/
def getField : Json → PyStr → Json → Except OllamaError Json
  | .obj fields, key, dflt => .ok ((fields.lookup key).getD dflt)
  | _, _, _ => .error .attrError

/-- The response handling of `LLM._generate_report_ollama` (lines 122-128):
`response_data.get("message", {}).get("content", None)`, returned when truthy,
otherwise the invalid-shape `ValueError`. -/
def extractOllamaContent (response_data : Json) : Except OllamaError Json :=
  match getField response_data "message".data (.obj []) with
  | .error e => .error e
  | .ok msg =>
    match getField msg "content".data .null with
    | .error e => .error e
    | .ok content =>
      if pyTruthy content then .ok content else .error .invalidShape

/-- What one Ollama attempt observes from the network: either a transport
failure (a `requests` exception) or an HTTP reply with a status code and a
parsed JSON body. -/
inductive HttpOutcome : Type
  | failure
  | response (status : Nat) (body : Json)

/-- One attempt of `LLM._generate_report_ollama`: a transport failure raises; a
reply first passes `response.raise_for_status()` (raising on any status
`≥ 400`), then its body goes through the content extraction. -/
def generate_report_ollama (http : HttpOutcome) : Except OllamaError Json :=
  match http with
  | .failure => .error .transport
  | .response status body =>
    if 400 ≤ status then .error (.httpStatus status)
    else extractOllamaContent body

/-- A response body contains the nested `message.content` field iff it is an
object whose `message` field is an object in which `content` is present. -/
def hasMessageContent (body : Json) : Bool :=
  match body with
  | .obj fields =>
    match fields.lookup "message".data with
    | some (.obj mf) => (mf.lookup "content".data).isSome
    | _ => false
  | _ => false

/-- A response body whose `message` field, when the body is an object, is
either absent or itself an object — the shapes on which the `.get` chain runs
without an `AttributeError`. -/
def messageFieldWellShaped (body : Json) : Bool :=
  match body with
  | .obj fields =>
    match fields.lookup "message".data with
    | some (.obj _) => true
    | some _ => false
    | none => true
  | _ => false

/-- C6 counterexample: the body `{"message": "hi"}` lacks the nested
`message.content` field, yet the attempt fails with the `AttributeError` from
`"hi".get("content", None)`, not with the dedicated invalid-shape
`ValueError` — so the claim as stated fails on this input. -/
theorem ollama_missing_content_counterexample :
    hasMessageContent (.obj [("message".data, .str "hi".data)]) = false ∧
    generate_report_ollama (.response 200 (.obj [("message".data, .str "hi".data)])) =
      .error .attrError ∧
    (Except.error OllamaError.attrError : Except OllamaError Json) ≠
      .error .invalidShape := by
  refine ⟨rfl, rfl, ?_⟩
  intro h
  injection h with h'
  exact OllamaError.noConfusion h'

/-- C6 (amended): for every 2xx response whose JSON body is an object whose
`message` field is absent or itself an object, if the nested `message.content`
field is missing then the attempt fails with exactly the invalid-shape error,
which is distinct from the transport error and from every HTTP-status error
(bodies where `message` or the top level is a non-object fail with a separate
attribute error instead, also distinct from transport failures). -/
theorem ollama_missing_content_invalid_shape (status : Nat) (body : Json)
    (hstatus : status < 400)
    (hshape : messageFieldWellShaped body = true)
    (hmissing : hasMessageContent body = false) :
    generate_report_ollama (.response status body) = .error .invalidShape ∧
    OllamaError.invalidShape ≠ .transport ∧
    (∀ c, OllamaError.invalidShape ≠ .httpStatus c) ∧
    OllamaError.attrError ≠ .transport := by
  refine ⟨?_, by intro h; exact OllamaError.noConfusion h,
    fun c => by intro h; exact OllamaError.noConfusion h,
    by intro h; exact OllamaError.noConfusion h⟩
  simp only [generate_report_ollama]
  rw [if_neg (by omega)]
  cases body with
  | obj fields =>
    unfold extractOllamaContent getField
    cases hlk : fields.lookup "message".data with
    | none =>
      simp [hlk, pyTruthy]
    | some v =>
      cases v with
      | obj mf =>
        have hnone : mf.lookup "content".data = none := by
          cases hc : mf.lookup "content".data with
          | none => rfl
          | some w =>
            exfalso
            have hs : hasMessageContent (.obj fields) = true := by
              simp only [hasMessageContent, hlk, hc, Option.isSome_some]
            rw [hs] at hmissing
            exact Bool.noConfusion hmissing
        simp [hlk, hnone, pyTruthy]
      | null => simp [messageFieldWellShaped, hlk] at hshape
      | bool b => simp [messageFieldWellShaped, hlk] at hshape
      | num q => simp [messageFieldWellShaped, hlk] at hshape
      | str s => simp [messageFieldWellShaped, hlk] at hshape
      | arr xs => simp [messageFieldWellShaped, hlk] at hshape
  | null => simp [messageFieldWellShaped] at hshape
  | bool b => simp [messageFieldWellShaped] at hshape
  | num q => simp [messageFieldWellShaped] at hshape
  | str s => simp [messageFieldWellShaped] at hshape
  | arr xs => simp [messageFieldWellShaped] at hshape

/-- C6 witness: the empty-object body `{}` at status 200. -/
theorem ollama_missing_content_invalid_shape_witness :
    generate_report_ollama (.response 200 (.obj [])) = .error .invalidShape ∧
    OllamaError.invalidShape ≠ .transport ∧
    (∀ c, OllamaError.invalidShape ≠ .httpStatus c) ∧
    OllamaError.attrError ≠ .transport :=
  ollama_missing_content_invalid_shape 200 (.obj []) (by omega) rfl rfl

theorem extractOllamaContent_ok_truthy (body : Json) (j : Json)
    (h : extractOllamaContent body = .ok j) : pyTruthy j = true := by
  unfold extractOllamaContent at h
  split at h
  · exact absurd h (by simp)
  · split at h
    · exact absurd h (by simp)
    · split at h
      case isTrue ht =>
        injection h with h'
        rw [h'] at ht
        exact ht
      case isFalse => exact absurd h (by simp)

/-- C10: a present-but-falsy `message.content` value (empty string, `null`,
`0`, `false`, empty list or object) raises exactly the same invalid-shape
error as an absent field; consequently a successful Ollama attempt always
returns a truthy value, so it never returns an empty report string. -/
theorem ollama_falsy_content_invalid_shape (status : Nat)
    (fields mf : List (PyStr × Json)) (v : Json)
    (hstatus : status < 400)
    (hmsg : fields.lookup "message".data = some (.obj mf))
    (hcontent : mf.lookup "content".data = some v)
    (hfalsy : pyTruthy v = false) :
    generate_report_ollama (.response status (.obj fields)) = .error .invalidShape ∧
    (∀ http s, generate_report_ollama http = .ok (.str s) → s ≠ []) := by
  constructor
  · simp only [generate_report_ollama]
    rw [if_neg (by omega)]
    unfold extractOllamaContent getField
    simp [hmsg, hcontent, hfalsy]
  · intro http s hok
    cases http with
    | failure => exact absurd hok (by simp [generate_report_ollama])
    | response st body =>
      simp only [generate_report_ollama] at hok
      by_cases hst : 400 ≤ st
      · rw [if_pos hst] at hok
        exact absurd hok (by simp)
      · rw [if_neg hst] at hok
        have := extractOllamaContent_ok_truthy body (.str s) hok
        intro hnil
        rw [hnil] at this
        simp [pyTruthy] at this

/-- C10 witness: body `{"message": {"content": ""}}` at status 200. -/
theorem ollama_falsy_content_invalid_shape_witness :
    generate_report_ollama
      (.response 200 (.obj [("message".data, .obj [("content".data, .str [])])])) =
      .error .invalidShape ∧
    (∀ http s, generate_report_ollama http = .ok (.str s) → s ≠ []) :=
  ollama_falsy_content_invalid_shape 200
    [("message".data, .obj [("content".data, .str [])])]
    [("content".data, .str [])] (.str []) (by omega) (by rfl) (by rfl) rfl

/-- The configuration attributes `LLM.__init__` reads.  `Option` fields model
attributes that may be missing, resolved by `getattr(config, name, default)`. -/
structure Config : Type where
  llm_model_type : PyStr
  llm_temperature : Option ℚ
  llm_max_retries : Option Nat
  llm_timeout_seconds : Option Nat
  llm_system_role_base : Option PyStr
  ollama_api_url : PyStr
  ollama_model_name : PyStr
  openai_model_name : PyStr

/-- The configuration errors `LLM.__init__` can raise (both are `ValueError`s
in the source, with distinct messages). -/
inductive ConfigError : Type
  | missingApiKey
  | unsupportedModel (m : PyStr)
deriving Repr

/-- The backend fixed at construction: an OpenAI client built from the
credential, or the Ollama endpoint URL. -/
inductive Backend : Type
  | openai (api_key : PyStr) (model_name : PyStr)
  | ollama (api_url : PyStr)
deriving Repr

/-- Side effects observable during construction. `networkCall` never occurs in
`__init__` (the OpenAI client constructor performs no request); `sleepFor` is
the retry backoff, which only `generate_report` performs. -/
inductive Effect : Type
  | networkCall
  | sleepFor (d : Nat)
  | logError
deriving DecidableEq, Repr

/-- `LLM.__init__` from `src/llm.py`: lowercase the model type; for `"openai"`
require a truthy `OPENAI_API_KEY` environment value (logging and raising on a
missing or empty one), for `"ollama"` store the endpoint URL, and log and raise
on any other model type.  Returns the outcome paired with the list of effects
performed. -/
def llmInit (cfg : Config) (openai_api_key : Option PyStr) :
    Except ConfigError Backend × List Effect :=
  let model := pyLower cfg.llm_model_type
  if model = "openai".data then
    match openai_api_key with
    | some k =>
      if k = [] then (.error .missingApiKey, [.logError])
      else (.ok (.openai k cfg.openai_model_name), [])
    | none => (.error .missingApiKey, [.logError])
  else if model = "ollama".data then
    (.ok (.ollama cfg.ollama_api_url), [])
  else
    (.error (.unsupportedModel model), [.logError])

/-- C7: with an unsupported backend kind, or with the OpenAI backend while the
credential is absent (or empty) in the environment, construction raises a
`ConfigurationError`: the outcome is an error, the construction trace performs
no network call, and it performs no backoff sleep (the error is not retried). -/
theorem init_config_error_no_network (cfg : Config) (key : Option PyStr)
    (h : (pyLower cfg.llm_model_type ≠ "openai".data ∧
          pyLower cfg.llm_model_type ≠ "ollama".data) ∨
         (pyLower cfg.llm_model_type = "openai".data ∧ (key = none ∨ key = some []))) :
    (∃ e, (llmInit cfg key).1 = .error e) ∧
    Effect.networkCall ∉ (llmInit cfg key).2 ∧
    ∀ d, Effect.sleepFor d ∉ (llmInit cfg key).2 := by
  rcases h with ⟨h1, h2⟩ | ⟨h1, h2⟩
  · unfold llmInit
    rw [if_neg h1, if_neg h2]
    exact ⟨⟨.unsupportedModel (pyLower cfg.llm_model_type), rfl⟩, by simp,
      fun d => by simp⟩
  · unfold llmInit
    rw [if_pos h1]
    rcases h2 with h2 | h2
    · rw [h2]
      exact ⟨⟨.missingApiKey, rfl⟩, by simp, fun d => by simp⟩
    · rw [h2]
      exact ⟨⟨.missingApiKey, by simp⟩, by simp, fun d => by simp⟩

/-- C7 witness: model type `"openai"` with no credential in the environment. -/
theorem init_config_error_no_network_witness :
    (∃ e, (llmInit ⟨"OpenAI".data, none, none, none, none, [], [], []⟩ none).1 = .error e) ∧
    Effect.networkCall ∉ (llmInit ⟨"OpenAI".data, none, none, none, none, [], [], []⟩ none).2 ∧
    ∀ d, Effect.sleepFor d ∉ (llmInit ⟨"OpenAI".data, none, none, none, none, [], [], []⟩ none).2 :=
  init_config_error_no_network ⟨"OpenAI".data, none, none, none, none, [], [], []⟩ none
    (Or.inr ⟨by decide, Or.inl rfl⟩)

/-- Serialization of one message into the request payload:
`{"role": ..., "content": ...}`. -/
def messageToJson (m : Message) : Json :=
  .obj [("role".data, .str (match m.role with
          | Role.system => "system".data
          | Role.user => "user".data)),
        ("content".data, .str m.content)]

/-- An HTTP POST request as issued by `requests.post(url, json=payload,
timeout=...)`: target URL, JSON body, and the bounded timeout in seconds. -/
structure HttpRequest : Type where
  url : PyStr
  body : List (PyStr × Json)
  timeout : Nat

/-- The request built by `LLM._generate_report_ollama` (lines 109-120): the
payload dict in source order with `max_tokens` fixed at 4000 and `stream`
false, posted to the configured URL with the timeout resolved in `__init__`
(`getattr(config, 'llm_timeout_seconds', 120)`); the temperature is likewise
the resolved `getattr(config, 'llm_temperature', 0.3)`. -/
def ollamaRequest (cfg : Config) (messages : List Message) : HttpRequest :=
  { url := cfg.ollama_api_url
    body := [("model".data, .str cfg.ollama_model_name),
             ("messages".data, .arr (messages.map messageToJson)),
             ("max_tokens".data, .num 4000),
             ("temperature".data, .num (cfg.llm_temperature.getD (3 / 10))),
             ("stream".data, .bool false)]
    timeout := cfg.llm_timeout_seconds.getD 120 }

/-- C8: the Ollama POST body has exactly the keys `model`, `messages`,
`max_tokens`, `temperature`, `stream` in that order; `stream` is `false`;
`messages` carries exactly the serialized role/content pairs; and the request
timeout is the configured `llm_timeout_seconds`, defaulting to 120 when the
configuration does not provide one. -/
theorem ollama_request_shape (cfg : Config) (messages : List Message) :
    (ollamaRequest cfg messages).body.map Prod.fst =
      ["model".data, "messages".data, "max_tokens".data, "temperature".data,
       "stream".data] ∧
    (ollamaRequest cfg messages).body.lookup "stream".data = some (.bool false) ∧
    (ollamaRequest cfg messages).body.lookup "messages".data =
      some (.arr (messages.map messageToJson)) ∧
    (ollamaRequest cfg messages).timeout = cfg.llm_timeout_seconds.getD 120 ∧
    (ollamaRequest cfg messages).url = cfg.ollama_api_url := by
  refine ⟨rfl, ?_, ?_, rfl, rfl⟩
  · simp [ollamaRequest, List.lookup]
  · simp [ollamaRequest, List.lookup]

/-- The value returned by a dry-run-aware generate: either report text or the
sentinel meaning that no generation occurred. -/
inductive GenValue : Type
  | text (s : PyStr)
  | noGeneration
deriving Repr

/-- Observable trace of one dry-run-aware generate call: its outcome, the
number of network calls (backend dispatches), and the files written as (path,
parsed JSON content) pairs. -/
structure DryRunTrace (E : Type) : Type where
  result : Except E GenValue
  networkCalls : Nat
  fileWrites : List (PyStr × Json)

/-- Modelled from the spec: the dry-run capability of §6 is not implemented in
the code under `src/` (the spec merges a second, dry-run-capable implementation
of the report-generation class that is absent here).  Per the spec, when
dry-run is enabled the engine skips the network entirely, persists the composed
Message Sequence as JSON to the designated path, and returns the no-generation
sentinel; when disabled it behaves as `generate_report`. -/
def generateWithDryRun {E : Type} (base : PyStr) (dryRun : Bool) (path : PyStr)
    (backend : Nat → List Message → Except E PyStr) (maxRetries : Nat)
    (system_prompt user_content : Option PyStr) : DryRunTrace E :=
  let msgs := buildMessages base system_prompt user_content
  if dryRun then
    ⟨.ok .noGeneration, 0, [(path, .arr (msgs.map messageToJson))]⟩
  else
    let t := attemptLoop backend msgs maxRetries 0
    ⟨t.result.map .text, t.dispatched.length, []⟩

/-- C9: with dry-run enabled, generate performs zero network calls, writes one
file at the designated path whose parsed JSON is exactly the composed Message
Sequence, and returns the no-generation sentinel. -/
theorem dry_run_no_network {E : Type} (base : PyStr) (path : PyStr)
    (backend : Nat → List Message → Except E PyStr) (maxRetries : Nat)
    (system_prompt user_content : Option PyStr) :
    (generateWithDryRun base true path backend maxRetries system_prompt
        user_content).networkCalls = 0 ∧
    (generateWithDryRun base true path backend maxRetries system_prompt
        user_content).fileWrites =
      [(path, .arr ((buildMessages base system_prompt user_content).map messageToJson))] ∧
    (generateWithDryRun base true path backend maxRetries system_prompt
        user_content).result = .ok .noGeneration :=
  ⟨rfl, rfl, rfl⟩

end GitHubSentinel
